import Mathlib

/-! SilentFlow chat backend: retry loop and chat endpoint.

A shallow embedding of `web/backend/go/handlers/chat.go`:

* `callHuggingFace` builds one outbound request and runs a retry loop of at
  most `maxRetries = 2` iterations around `client.Do(req)`;
* `ChatHandler` decodes the inbound payload, calls `callHuggingFace` and
  writes the HTTP response.

The network, the process environment and the JSON decoder of the inbound
payload are inputs of the model (`World`).  Every effect of the Go code that
the properties talk about is recorded, in program order, in a trace of
`Event`s: each `client.Do`, each `time.Sleep`, each `io.ReadAll` and each
`resp.Body.Close()`.

Go `int`, `int64` and `time.Duration` are 64-bit two's complement; they are
modelled as `Int` with an explicit wrap-around (`wrap64`).

The identifiers `time`, `strconv`, `io` and `fmt` used by chat.go are read as
the Go standard packages of those names (the import block of the file does not
list them).  The library functions the properties depend on are modelled by
their documented behaviour: `strconv.Atoi`, `http.Header.Get` and `Set`,
`http.Error`, `io.ReadAll`, `time.Sleep`, `json.Marshal` on the payload map,
and the reading of a `bytes.Buffer`.
-/

namespace SilentFlow

/-! ## Basic data -/

/-- A Go byte slice. -/
abbrev Bytes := List UInt8

/-- The bytes of a Go string: the conversion `[]byte(s)`. -/
def bytesOf (s : String) : Bytes := s.data.flatMap String.utf8EncodeChar

/-- Wrap an integer into the range of a signed 64-bit machine integer. -/
def wrap64 (x : Int) : Int := (x + 2 ^ 63) % 2 ^ 64 - 2 ^ 63

/-- The constant `time.Second`, in nanoseconds (the unit of `time.Duration`). -/
def Second : Int := 1000000000

/-- The product `time.Duration(n) * time.Second`, computed in `int64`. -/
def secondsDuration (n : Int) : Int := wrap64 (n * Second)

/-- HTTP headers as an association list from canonical header name to value. -/
abbrev Header := List (String × String)

/-- Lookup `h.Get(key)`: the first value stored under `key`, or `""`. -/
def Header.Get (h : Header) (key : String) : String :=
  match h.find? (fun kv => kv.1 == key) with
  | some kv => kv.2
  | none => ""

/-- Removal `h.Del(key)`. -/
def Header.Del (h : Header) (key : String) : Header :=
  h.filter (fun kv => !(kv.1 == key))

/-- Assignment `h.Set(key, value)`: replaces whatever was stored under `key`. -/
def Header.Set (h : Header) (key value : String) : Header :=
  Header.Del h key ++ [(key, value)]

/-! ## `strconv.Atoi` -/

/-- Decimal digit test on one character. -/
def isDecimalDigit (c : Char) : Bool := decide (48 ≤ c.toNat) && decide (c.toNat ≤ 57)

/-- How a scan of `strconv.ParseUint` ends. -/
inductive ScanEnd where
  /-- Every character was a digit and the value fits. -/
  | done
  /-- A character that is not a decimal digit was met (`ErrSyntax`). -/
  | syntaxError
  /-- The value left the range of `uint64` (`ErrRange`). -/
  | rangeError
  deriving DecidableEq, Repr

/-- The digit loop of `strconv.ParseUint(s, 10, 64)`, left to right, with `n`
the value so far.  The first character that is not a digit ends the scan with
a syntax error and value 0; the first digit that would take the value past
`2 ^ 64 - 1` ends it with a range error and value `2 ^ 64 - 1`. -/
def scanDigits : List Char → Nat → Nat × ScanEnd
  | [], n => (n, ScanEnd.done)
  | c :: rest, n =>
    if !isDecimalDigit c then (0, ScanEnd.syntaxError)
    else if (2 ^ 64 - 1) / 10 + 1 ≤ n then (2 ^ 64 - 1, ScanEnd.rangeError)
    else if 2 ^ 64 - 1 < n * 10 + (c.toNat - 48) then (2 ^ 64 - 1, ScanEnd.rangeError)
    else scanDigits rest (n * 10 + (c.toNat - 48))

/-- Sign and magnitude part of the argument of `Atoi`: one optional leading
`+` or `-` is split off. -/
def splitSign (cs : List Char) : Bool × List Char :=
  match cs with
  | c :: rest =>
    if c.toNat = 45 then (true, rest)
    else if c.toNat = 43 then (false, rest)
    else (false, cs)
  | [] => (false, [])

/-- The library function `strconv.Atoi` on a 64-bit platform.  The result is
the returned `int` together with `true` when the returned error is `nil`.
A syntax error returns `0`; a value out of range returns the nearest bound of
`int64` (both with a non-nil error). -/
def Atoi (s : String) : Int × Bool :=
  let p := splitSign s.data
  if p.2.isEmpty then (0, false)
  else
    match scanDigits p.2 0 with
    | (_, ScanEnd.syntaxError) => (0, false)
    | (un, _) =>
      if !p.1 && decide (2 ^ 63 ≤ un) then (2 ^ 63 - 1, false)
      else if p.1 && decide (2 ^ 63 < un) then (-(2 ^ 63), false)
      else (if p.1 then -(un : Int) else (un : Int), true)

/-! ## `json.Marshal` of the request payload -/

/-- Lower-case hexadecimal digit of a number below 16. -/
def hexDigit (n : Nat) : Char :=
  if n < 10 then Char.ofNat (48 + n) else Char.ofNat (87 + n)

/-- Escaping of one character inside a JSON string, as `encoding/json` does it
with HTML escaping on (the default of `json.Marshal`). -/
def encodeChar (c : Char) : List Char :=
  let n := c.toNat
  if n = 34 || n = 92 then [Char.ofNat 92, c]
  else if n = 8 then [Char.ofNat 92, Char.ofNat 98]
  else if n = 12 then [Char.ofNat 92, Char.ofNat 102]
  else if n = 10 then [Char.ofNat 92, Char.ofNat 110]
  else if n = 13 then [Char.ofNat 92, Char.ofNat 114]
  else if n = 9 then [Char.ofNat 92, Char.ofNat 116]
  else if n < 32 || n = 38 || n = 60 || n = 62 then
    [Char.ofNat 92, Char.ofNat 117, Char.ofNat 48, Char.ofNat 48, hexDigit (n / 16), hexDigit (n % 16)]
  else if n = 8232 || n = 8233 then
    [Char.ofNat 92, Char.ofNat 117, Char.ofNat 50, Char.ofNat 48, Char.ofNat 50, hexDigit (n % 16)]
  else [c]

/-- A JSON string literal. -/
def encodeString (s : String) : String :=
  String.mk ([Char.ofNat 34] ++ s.data.flatMap encodeChar ++ [Char.ofNat 34])

/-- The output of `json.Marshal` on the map built by `callHuggingFace`
(chat.go, lines 38-42).  `encoding/json` writes the keys of a map in sorted
order: `inputs`, `max_new_tokens`, `wait_for_model`. -/
def marshalPayload (message : String) : String :=
  "\x7b\"inputs\":" ++ encodeString message ++
    ",\"max_new_tokens\":500,\"wait_for_model\":true\x7d"

/-! ## Requests, responses and the world -/

/-- The struct `ChatRequest` (chat.go, lines 10-12). -/
structure ChatRequest where
  Message : String
  deriving DecidableEq, Repr

/-- An outbound `http.Request`.  `Body` is the unread content of the
`bytes.Buffer` the request was created with: reading from the buffer removes
what was read. -/
structure Request where
  Method : String
  URL : String
  Header : Header
  Body : Bytes
  ContentLength : Nat
  deriving DecidableEq, Repr

/-- The stream `resp.Body` as `io.ReadAll` sees it: the bytes that can be read,
and the error that ends the stream (`none` for a clean end of file). -/
structure BodyStream where
  data : Bytes
  err : Option String
  deriving DecidableEq, Repr

/-- An `http.Response`. -/
structure Response where
  StatusCode : Int
  Header : Header
  Body : BodyStream
  deriving DecidableEq, Repr

/-- What a call of `client.Do(req)` returns: a non-nil error (a transport
failure: connection refused, DNS, timeout) or a response. -/
inductive Outcome where
  | transportError (cause : String)
  | response (resp : Response)
  deriving DecidableEq, Repr

/-- What one call of `client.Do(req)` does: the number of bytes the transport
reads from `req.Body`, and what it returns.  A rewinding of the body by the
transport itself (`req.GetBody`) is not part of the model. -/
structure RoundTrip where
  bodyRead : Nat
  result : Outcome

/-- The `http.Client` of chat.go, lines 49-51. -/
structure Client where
  Timeout : Int
  deriving DecidableEq, Repr

/-- Everything outside the program: the process environment (`os.Getenv`),
the JSON decoder applied to the inbound body
(`json.NewDecoder(r.Body).Decode(&req)`), and the network as seen by the
`k`-th call of `client.Do` (counted from 0) on the request object given to it. -/
structure World where
  getenv : String → String
  decode : Bytes → Except String ChatRequest
  roundTrip : Nat → Client → Request → RoundTrip

/-- An error value returned by `callHuggingFace`. -/
inductive GoError where
  /-- An error made by `fmt.Errorf` with the given text. -/
  | errorf (msg : String)
  /-- An error returned by `io.ReadAll` while reading a response body. -/
  | read (cause : String)
  deriving DecidableEq, Repr

/-- Observable effects, in program order. -/
inductive Event where
  /-- The `k`-th call of `client.Do`; `sent` is the request as transmitted, its
  `Body` being the bytes the transport read from the request buffer, and
  `outcome` is what the call returned. -/
  | Do (k : Nat) (sent : Request) (outcome : Outcome)
  /-- A call `time.Sleep(d)`, `d` in nanoseconds. -/
  | Sleep (d : Int)
  /-- The call `io.ReadAll(resp.Body)` on the response of attempt `k`. -/
  | ReadAll (k : Nat)
  /-- The call `resp.Body.Close()` on the response of attempt `k`. -/
  | Close (k : Nat)
  deriving DecidableEq, Repr

/-- The pair `([]byte, error)` returned by `callHuggingFace`; `none` is `nil`. -/
abbrev Result := Option Bytes × Option GoError

/-! ## `callHuggingFace` -/

/-- The model URL (chat.go, line 35). -/
def modelURL : String :=
  "https://api-inference.huggingface.co/models/mistralai/Mistral-7B-Instruct-v0.1"

/-- The text of the error of chat.go, line 77. -/
def timeoutMessage : String := "模型加载超时，请稍后再试"

/-- The constant `maxRetries` (chat.go, line 54). -/
def maxRetries : Nat := 2

/-- The request built at chat.go, lines 38-46. -/
def buildRequest (apiKey message : String) : Request :=
  let requestBody := bytesOf (marshalPayload message)
  let h : Header := []
  { Method := "POST"
    URL := modelURL
    Header := Header.Set (Header.Set h "Authorization" ("Bearer " ++ apiKey))
      "Content-Type" "application/json"
    Body := requestBody
    ContentLength := requestBody.length }

/-- The client built at chat.go, lines 49-51. -/
def buildClient : Client := { Timeout := 60 * Second }

/-- The wait chosen for a 503 response (chat.go, lines 65-69), in seconds. -/
def waitTime (resp : Response) : Int :=
  let retryAfter := Header.Get resp.Header "Retry-After"
  if retryAfter != "" then (Atoi retryAfter).1 else 10

/-- State of the function while the loop runs. -/
structure LoopState where
  /-- The request object; its `Body` shrinks as the transport reads it. -/
  req : Request
  /-- Attempts whose `resp.Body.Close()` is deferred, most recent first. -/
  deferred : List Nat
  /-- The effects so far, oldest first. -/
  trace : List Event

/-- The deferred calls run when the function returns, last deferred first. -/
def runDeferred (st : LoopState) : List Event :=
  st.trace ++ st.deferred.map Event.Close

/-- The loop of chat.go, lines 55-77, from iteration `i` on, with `fuel`
iterations left (`fuel = maxRetries - i`), followed by the final `return`. -/
def retryLoop (w : World) (client : Client) :
    Nat → Nat → LoopState → Result × List Event
  | 0, _, st => ((none, some (GoError.errorf timeoutMessage)), runDeferred st)
  | fuel + 1, i, st =>
    let rt := w.roundTrip i client st.req
    let sent : Request := { st.req with Body := st.req.Body.take rt.bodyRead }
    let req1 : Request := { st.req with Body := st.req.Body.drop rt.bodyRead }
    let trace1 := st.trace ++ [Event.Do i sent rt.result]
    match rt.result with
    | Outcome.transportError _ =>
      retryLoop w client fuel (i + 1)
        { req := req1, deferred := st.deferred,
          trace := trace1 ++ [Event.Sleep (2 * Second)] }
    | Outcome.response resp =>
      let deferred1 := i :: st.deferred
      if resp.StatusCode = 503 then
        retryLoop w client fuel (i + 1)
          { req := req1, deferred := deferred1,
            trace := trace1 ++ [Event.Sleep (secondsDuration (waitTime resp))] }
      else
        ((some resp.Body.data, resp.Body.err.map GoError.read),
          runDeferred { req := req1, deferred := deferred1,
                        trace := trace1 ++ [Event.ReadAll i] })

/-- The function `callHuggingFace` (chat.go, lines 33-78): its return value and
the effects it performs. -/
def callHuggingFace (w : World) (message : String) : Result × List Event :=
  let apiKey := w.getenv "HF_API_KEY"
  retryLoop w buildClient maxRetries 0
    { req := buildRequest apiKey message, deferred := [], trace := [] }

/-! ## `ChatHandler` -/

/-- An `http.ResponseWriter`, recording what the handler writes. -/
structure ResponseWriter where
  header : Header
  /-- The status line written so far; `none` before `WriteHeader`. -/
  status : Option Int
  body : Bytes
  deriving DecidableEq, Repr

/-- The call `w.WriteHeader(code)`; only the first call counts. -/
def ResponseWriter.WriteHeader (rw : ResponseWriter) (code : Int) : ResponseWriter :=
  match rw.status with
  | some _ => rw
  | none => { rw with status := some code }

/-- The call `w.Write(b)`; writes status 200 first if no status was written. -/
def ResponseWriter.Write (rw : ResponseWriter) (b : Bytes) : ResponseWriter :=
  let rw1 := rw.WriteHeader 200
  { rw1 with body := rw1.body ++ b }

/-- The library function `http.Error(w, msg, code)`: it replaces the content
type, writes the status, and prints `msg` followed by a line feed
(`fmt.Fprintln`). -/
def httpError (rw : ResponseWriter) (msg : String) (code : Int) : ResponseWriter :=
  let h := Header.Set (Header.Set (Header.Del rw.header "Content-Length")
    "Content-Type" "text/plain; charset=utf-8") "X-Content-Type-Options" "nosniff"
  ResponseWriter.Write (ResponseWriter.WriteHeader { rw with header := h } code)
    (bytesOf (msg ++ "\n"))

/-- The literal of chat.go, line 19. -/
def invalidRequestBody : String := "\x7b\"error\":\"Invalid request\"\x7d"

/-- The literal of chat.go, line 26. -/
def unavailableBody : String := "\x7b\"error\":\"AI service unavailable\"\x7d"

/-- A fresh response writer. -/
def emptyWriter : ResponseWriter := { header := [], status := none, body := [] }

/-- The function `ChatHandler` (chat.go, lines 14-31) on an inbound request
with body `body`: the response written and the effects performed. -/
def ChatHandler (w : World) (body : Bytes) : ResponseWriter × List Event :=
  let rw := { emptyWriter with
    header := Header.Set emptyWriter.header "Content-Type" "application/json" }
  match w.decode body with
  | Except.error _ => (httpError rw invalidRequestBody 400, [])
  | Except.ok req =>
    match callHuggingFace w req.Message with
    | ((_, some _), tr) => (httpError rw unavailableBody 500, tr)
    | ((response, none), tr) => (ResponseWriter.Write rw (response.getD []), tr)

/-! ## Reading a trace -/

/-- The calls of `client.Do` in a trace, in order: the request each one
transmitted. -/
def attempts : List Event → List Request
  | [] => []
  | Event.Do _ sent _ :: rest => sent :: attempts rest
  | _ :: rest => attempts rest

/-- What the calls of `client.Do` in a trace returned, in order. -/
def outcomes : List Event → List Outcome
  | [] => []
  | Event.Do _ _ o :: rest => o :: outcomes rest
  | _ :: rest => outcomes rest

/-- An attempt the loop follows by a wait and `continue`: a transport failure
or a response with status 503. -/
def Outcome.retried : Outcome → Bool
  | Outcome.transportError _ => true
  | Outcome.response resp => decide (resp.StatusCode = 503)

/-- The arguments of the calls of `time.Sleep` in a trace, in order. -/
def sleeps : List Event → List Int
  | [] => []
  | Event.Sleep d :: rest => d :: sleeps rest
  | _ :: rest => sleeps rest

/-! ## The paths of `callHuggingFace` -/

/-- The duration passed to `time.Sleep` after an attempt that is retried:
chat.go, line 58 for a transport failure and lines 65-70 for a response. -/
def Outcome.delay : Outcome → Int
  | Outcome.transportError _ => 2 * Second
  | Outcome.response resp => secondsDuration (waitTime resp)

/-- The deferred `Close` an attempt leaves behind: one for a response, none
for a transport failure (chat.go, lines 57-61). -/
def Outcome.closes (k : Nat) : Outcome → List Event
  | Outcome.transportError _ => []
  | Outcome.response _ => [Event.Close k]

/-- The three ways through `callHuggingFace`, as a relation between the value
returned and the trace. -/
inductive Path : Result → List Event → Prop where
  /-- The first attempt gets a response that is not a 503. -/
  | first (s0 : Request) (r0 : Response) (h0 : r0.StatusCode ≠ 503) :
      Path (some r0.Body.data, r0.Body.err.map GoError.read)
        [Event.Do 0 s0 (Outcome.response r0), Event.ReadAll 0, Event.Close 0]
  /-- The first attempt is retried, the second gets a response that is not a 503. -/
  | second (s0 s1 : Request) (o0 : Outcome) (r1 : Response)
      (h0 : o0.retried = true) (h1 : r1.StatusCode ≠ 503) :
      Path (some r1.Body.data, r1.Body.err.map GoError.read)
        ([Event.Do 0 s0 o0, Event.Sleep o0.delay, Event.Do 1 s1 (Outcome.response r1),
          Event.ReadAll 1, Event.Close 1] ++ o0.closes 0)
  /-- Both attempts are retried. -/
  | exhausted (s0 s1 : Request) (o0 o1 : Outcome)
      (h0 : o0.retried = true) (h1 : o1.retried = true) :
      Path (none, some (GoError.errorf timeoutMessage))
        ([Event.Do 0 s0 o0, Event.Sleep o0.delay, Event.Do 1 s1 o1, Event.Sleep o1.delay]
          ++ o1.closes 1 ++ o0.closes 0)

/-! ## The world's answers along a call -/

/-- The request object handed to the first call of `client.Do`. -/
def firstRequest (w : World) (message : String) : Request :=
  buildRequest (w.getenv "HF_API_KEY") message

/-- What the world does with the first call of `client.Do`. -/
def firstTrip (w : World) (message : String) : RoundTrip :=
  w.roundTrip 0 buildClient (firstRequest w message)

/-- The request as the first call transmits it. -/
def firstSent (w : World) (message : String) : Request :=
  { firstRequest w message with
    Body := (firstRequest w message).Body.take (firstTrip w message).bodyRead }

/-- The request object as the first call leaves it: the same object, its
buffer without the bytes the first call read. -/
def secondRequest (w : World) (message : String) : Request :=
  { firstRequest w message with
    Body := (firstRequest w message).Body.drop (firstTrip w message).bodyRead }

/-- What the world does with a second call of `client.Do`. -/
def secondTrip (w : World) (message : String) : RoundTrip :=
  w.roundTrip 1 buildClient (secondRequest w message)

/-- The request as a second call transmits it. -/
def secondSent (w : World) (message : String) : Request :=
  { secondRequest w message with
    Body := (secondRequest w message).Body.take (secondTrip w message).bodyRead }

/-- The three ways through `callHuggingFace` for given answers `o0` and `o1`
of the world to a first and a second call of `client.Do`, transmitted as `s0`
and `s1`: the value returned and the trace. -/
inductive Run (s0 s1 : Request) (o0 o1 : Outcome) : Result → List Event → Prop where
  /-- The first answer is a response that is not a 503. -/
  | first (r0 : Response) (e0 : o0 = Outcome.response r0) (h0 : r0.StatusCode ≠ 503) :
      Run s0 s1 o0 o1 (some r0.Body.data, r0.Body.err.map GoError.read)
        [Event.Do 0 s0 o0, Event.ReadAll 0, Event.Close 0]
  /-- The first attempt is retried, the second answer is a response that is
  not a 503. -/
  | second (r1 : Response) (h0 : o0.retried = true) (e1 : o1 = Outcome.response r1)
      (h1 : r1.StatusCode ≠ 503) :
      Run s0 s1 o0 o1 (some r1.Body.data, r1.Body.err.map GoError.read)
        ([Event.Do 0 s0 o0, Event.Sleep o0.delay, Event.Do 1 s1 o1,
          Event.ReadAll 1, Event.Close 1] ++ o0.closes 0)
  /-- Both attempts are retried. -/
  | exhausted (h0 : o0.retried = true) (h1 : o1.retried = true) :
      Run s0 s1 o0 o1 (none, some (GoError.errorf timeoutMessage))
        ([Event.Do 0 s0 o0, Event.Sleep o0.delay, Event.Do 1 s1 o1, Event.Sleep o1.delay]
          ++ o1.closes 1 ++ o0.closes 0)

/-- Every call of `client.Do` in a trace, with its outcome and the events that
follow it. -/
def doSuffixes : List Event → List (Outcome × List Event)
  | [] => []
  | Event.Do _ _ o :: rest => (o, rest) :: doSuffixes rest
  | _ :: rest => doSuffixes rest

/-! ## Concrete worlds -/

/-- A decoder that knows one payload: the JSON object with `message` set to
`hi`; every other body is rejected. -/
def decodeHiOnly (body : Bytes) : Except String ChatRequest :=
  if body = bytesOf "\x7b\"message\":\"hi\"\x7d" then Except.ok { Message := "hi" }
  else Except.error "invalid character"

/-- A world whose provider follows a script: the `k`-th call of `client.Do`
returns the `k`-th entry (a refused connection when the script has run out).
A response means the whole request body was read and sent; a transport failure
means nothing was read. -/
def scriptedWorld (apiKey : String) (script : List Outcome) : World :=
  { getenv := fun name => if name = "HF_API_KEY" then apiKey else ""
    decode := decodeHiOnly
    roundTrip := fun k _ req =>
      match script.getD k (Outcome.transportError "connection refused") with
      | Outcome.transportError cause => { bodyRead := 0, result := Outcome.transportError cause }
      | Outcome.response resp => { bodyRead := req.Body.length, result := Outcome.response resp } }

/-- A 503 response carrying the given `Retry-After` value, or none. -/
def loading503 (retryAfter : Option String) : Response :=
  { StatusCode := 503
    Header := match retryAfter with
      | some v => [("Retry-After", v)]
      | none => []
    Body := { data := bytesOf "\x7b\"error\":\"loading\"\x7d", err := none } }

/-- A 200 response whose body is read to the end. -/
def ok200 (body : Bytes) : Response :=
  { StatusCode := 200, Header := [("Content-Type", "application/json")],
    Body := { data := body, err := none } }

/-- A 200 response whose body breaks off after `body` with a read error. -/
def cut200 (body : Bytes) : Response :=
  { StatusCode := 200, Header := [("Content-Type", "application/json")],
    Body := { data := body, err := some "unexpected EOF" } }

/-- The inbound payload the example decoder accepts. -/
def hiPayload : Bytes := bytesOf "\x7b\"message\":\"hi\"\x7d"

/-- The response `ChatHandler` writes when `callHuggingFace` fails: what
`http.Error` makes of the literal of chat.go, line 26, and status 500. -/
def unavailableResponse : ResponseWriter :=
  { header := [("Content-Type", "text/plain; charset=utf-8"),
      ("X-Content-Type-Options", "nosniff")]
    status := some 500
    body := bytesOf unavailableBody ++ [10] }

/-! ## Theorems -/

set_option maxRecDepth 20000

/-- Every call of `callHuggingFace` follows one of the three paths. -/
theorem callHuggingFace_path (w : World) (message : String) :
    Path (callHuggingFace w message).1 (callHuggingFace w message).2 := by
  unfold callHuggingFace
  simp only [maxRetries, retryLoop]
  generalize w.roundTrip 0 buildClient _ = rt0
  obtain ⟨n0, o0⟩ := rt0
  cases o0 with
  | transportError e0 =>
    simp only []
    generalize w.roundTrip 1 buildClient _ = rt1
    obtain ⟨n1, o1⟩ := rt1
    cases o1 with
    | transportError e1 =>
      exact Path.exhausted _ _ (Outcome.transportError e0) (Outcome.transportError e1) rfl rfl
    | response r1 =>
      simp only []
      split
      · next h1 =>
        exact Path.exhausted _ _ (Outcome.transportError e0) (Outcome.response r1) rfl
          (by simp [Outcome.retried, h1])
      · next h1 =>
        exact Path.second _ _ (Outcome.transportError e0) r1 rfl h1
  | response r0 =>
    simp only []
    split
    · next h0 =>
      have hr0 : (Outcome.response r0).retried = true := by simp [Outcome.retried, h0]
      generalize w.roundTrip 1 buildClient _ = rt1
      obtain ⟨n1, o1⟩ := rt1
      cases o1 with
      | transportError e1 =>
        exact Path.exhausted _ _ (Outcome.response r0) (Outcome.transportError e1) hr0 rfl
      | response r1 =>
        simp only []
        split
        · next h1 =>
          exact Path.exhausted _ _ (Outcome.response r0) (Outcome.response r1) hr0
            (by simp [Outcome.retried, h1])
        · next h1 =>
          exact Path.second _ _ (Outcome.response r0) r1 hr0 h1
    · next h0 =>
      exact Path.first _ r0 h0

/-- Every call of `callHuggingFace` follows one of the three paths, on the
answers the world gives to its calls of `client.Do`. -/
theorem callHuggingFace_run (w : World) (message : String) :
    Run (firstSent w message) (secondSent w message) (firstTrip w message).result
      (secondTrip w message).result (callHuggingFace w message).1
      (callHuggingFace w message).2 := by
  unfold callHuggingFace firstSent secondSent secondTrip secondRequest firstTrip firstRequest
  simp only [maxRetries, retryLoop]
  generalize buildRequest (w.getenv "HF_API_KEY") message = req
  generalize w.roundTrip 0 buildClient req = rt0
  obtain ⟨n0, o0⟩ := rt0
  cases o0 with
  | transportError e0 =>
    simp only []
    generalize w.roundTrip 1 buildClient _ = rt1
    obtain ⟨n1, o1⟩ := rt1
    cases o1 with
    | transportError e1 => exact Run.exhausted rfl rfl
    | response r1 =>
      simp only []
      split
      · next h1 => exact Run.exhausted rfl (by simp [Outcome.retried, h1])
      · next h1 => exact Run.second r1 rfl rfl h1
  | response r0 =>
    simp only []
    split
    · next h0 =>
      have hr0 : (Outcome.response r0).retried = true := by simp [Outcome.retried, h0]
      generalize w.roundTrip 1 buildClient _ = rt1
      obtain ⟨n1, o1⟩ := rt1
      cases o1 with
      | transportError e1 => exact Run.exhausted hr0 rfl
      | response r1 =>
        simp only []
        split
        · next h1 => exact Run.exhausted hr0 (by simp [Outcome.retried, h1])
        · next h1 => exact Run.second r1 hr0 rfl h1
    · next h0 => exact Run.first r0 rfl h0

/-- A `Do` event of a trace is listed by `doSuffixes` with what follows it. -/
theorem mem_doSuffixes (pre post : List Event) (k : Nat) (sent : Request) (o : Outcome) :
    (o, post) ∈ doSuffixes (pre ++ Event.Do k sent o :: post) := by
  induction pre with
  | nil => simp [doSuffixes]
  | cons e pre ih =>
    cases e <;> simp [doSuffixes, ih]

/-- What follows a call of `client.Do` in a trace of `callHuggingFace`: either
the attempt is retried and its wait comes next, or it got a response that is
not a 503, nothing but reading and closing follows, and the result is what
reading that response's body gives. -/
theorem trace_after_do (w : World) (message : String)
    (pre post : List Event) (k : Nat) (sent : Request) (o : Outcome)
    (htrace : (callHuggingFace w message).2 = pre ++ Event.Do k sent o :: post) :
    (o.retried = true ∧ ∃ post1, post = Event.Sleep o.delay :: post1) ∨
    (∃ resp, o = Outcome.response resp ∧ resp.StatusCode ≠ 503 ∧
      attempts post = [] ∧ sleeps post = [] ∧
      (callHuggingFace w message).1 = (some resp.Body.data, resp.Body.err.map GoError.read)) := by
  have hm := mem_doSuffixes pre post k sent o
  rw [← htrace] at hm
  have hp := callHuggingFace_path w message
  generalize (callHuggingFace w message).1 = res at hp ⊢
  generalize (callHuggingFace w message).2 = tr at hp hm
  cases hp with
  | first s0 r0 h0 =>
    simp [doSuffixes] at hm
    obtain ⟨rfl, rfl⟩ := hm
    exact Or.inr ⟨r0, rfl, h0, rfl, rfl, rfl⟩
  | second s0 s1 o0 r1 h0 h1 =>
    have hm1 : (o, post) = (o0, [Event.Sleep o0.delay, Event.Do 1 s1 (Outcome.response r1),
        Event.ReadAll 1, Event.Close 1] ++ o0.closes 0) ∨
        (o, post) = (Outcome.response r1, [Event.ReadAll 1, Event.Close 1] ++ o0.closes 0) := by
      cases o0 <;> simpa [doSuffixes, Outcome.closes] using hm
    rcases hm1 with h | h
    · obtain ⟨rfl, rfl⟩ := Prod.mk.inj h
      exact Or.inl ⟨h0, _, rfl⟩
    · obtain ⟨rfl, rfl⟩ := Prod.mk.inj h
      refine Or.inr ⟨r1, rfl, h1, ?_, ?_, rfl⟩ <;> cases o0 <;> rfl
  | exhausted s0 s1 o0 o1 h0 h1 =>
    have hm1 : (o, post) = (o0, [Event.Sleep o0.delay, Event.Do 1 s1 o1,
        Event.Sleep o1.delay] ++ o1.closes 1 ++ o0.closes 0) ∨
        (o, post) = (o1, [Event.Sleep o1.delay] ++ o1.closes 1 ++ o0.closes 0) := by
      cases o0 <;> cases o1 <;> simpa [doSuffixes, Outcome.closes] using hm
    rcases hm1 with h | h
    · obtain ⟨rfl, rfl⟩ := Prod.mk.inj h
      exact Or.inl ⟨h0, _, rfl⟩
    · obtain ⟨rfl, rfl⟩ := Prod.mk.inj h
      exact Or.inl ⟨h1, _, rfl⟩

/-- Claim C1, as amended: when an attempt of `callHuggingFace` receives a
response whose status is not 503, no further `client.Do` and no `time.Sleep`
follows it, and the function returns what `io.ReadAll` gives for that
response's body, whatever the status code: the bytes read, with a nil error
exactly when the body is read to its end, and with the read error otherwise. -/
theorem callHuggingFace_returns_on_non503 (w : World) (message : String)
    (pre post : List Event) (k : Nat) (sent : Request) (resp : Response)
    (htrace : (callHuggingFace w message).2 =
      pre ++ Event.Do k sent (Outcome.response resp) :: post)
    (hstatus : resp.StatusCode ≠ 503) :
    attempts post = [] ∧ sleeps post = [] ∧
      (callHuggingFace w message).1 =
        (some resp.Body.data, resp.Body.err.map GoError.read) ∧
      (resp.Body.err = none →
        (callHuggingFace w message).1 = (some resp.Body.data, none)) := by
  rcases trace_after_do w message pre post k sent _ htrace with ⟨hr, -⟩ | ⟨r, hr, -, ha, hs, hres⟩
  · simp [Outcome.retried, hstatus] at hr
  · cases hr
    refine ⟨ha, hs, hres, fun hnone => ?_⟩
    rw [hres, hnone]; rfl

/-- The amended claim C1 at a provider that answers 200 with the bytes 1, 2, 3. -/
theorem callHuggingFace_returns_on_non503_witness :
    (callHuggingFace (scriptedWorld "secret" [Outcome.response (ok200 [1, 2, 3])]) "hi").2 =
        [] ++ Event.Do 0 (buildRequest "secret" "hi") (Outcome.response (ok200 [1, 2, 3])) ::
          [Event.ReadAll 0, Event.Close 0] ∧
      (ok200 [1, 2, 3]).StatusCode ≠ 503 ∧
      (callHuggingFace (scriptedWorld "secret" [Outcome.response (ok200 [1, 2, 3])]) "hi").1 =
        (some [1, 2, 3], none) :=
  ⟨by rfl, by decide,
    (callHuggingFace_returns_on_non503 (scriptedWorld "secret" [Outcome.response (ok200 [1, 2, 3])])
      "hi" [] [Event.ReadAll 0, Event.Close 0] 0 (buildRequest "secret" "hi") (ok200 [1, 2, 3])
      (by rfl) (by decide)).2.2.2 rfl⟩

/-- Claim C1 fails as stated: a 200 response whose body breaks off with a read
error is returned with that error, not with a nil error. -/
theorem callHuggingFace_read_error_counterexample :
    (callHuggingFace (scriptedWorld "secret" [Outcome.response (cut200 [1, 2])]) "hi").2 =
        [] ++ Event.Do 0 (buildRequest "secret" "hi") (Outcome.response (cut200 [1, 2])) ::
          [Event.ReadAll 0, Event.Close 0] ∧
      (cut200 [1, 2]).StatusCode ≠ 503 ∧
      (callHuggingFace (scriptedWorld "secret" [Outcome.response (cut200 [1, 2])]) "hi").1 ≠
        (some (cut200 [1, 2]).Body.data, none) :=
  ⟨by rfl, by decide, by decide⟩

/-- The attempts of a concatenated trace. -/
theorem attempts_append (a b : List Event) : attempts (a ++ b) = attempts a ++ attempts b := by
  induction a with
  | nil => rfl
  | cons e a ih => cases e <;> simp [attempts, ih]

/-- The outcomes of a concatenated trace. -/
theorem outcomes_append (a b : List Event) : outcomes (a ++ b) = outcomes a ++ outcomes b := by
  induction a with
  | nil => rfl
  | cons e a ih => cases e <;> simp [outcomes, ih]

/-- The waits of a concatenated trace. -/
theorem sleeps_append (a b : List Event) : sleeps (a ++ b) = sleeps a ++ sleeps b := by
  induction a with
  | nil => rfl
  | cons e a ih => cases e <;> simp [sleeps, ih]

/-- Deferred closes contain no attempt. -/
theorem attempts_closes (k : Nat) (o : Outcome) : attempts (o.closes k) = [] := by
  cases o <;> rfl

/-- Deferred closes contain no outcome. -/
theorem outcomes_closes (k : Nat) (o : Outcome) : outcomes (o.closes k) = [] := by
  cases o <;> rfl

/-- Deferred closes contain no wait. -/
theorem sleeps_closes (k : Nat) (o : Outcome) : sleeps (o.closes k) = [] := by
  cases o <;> rfl

/-- A response that is not a 503 is not retried. -/
theorem not_retried_of_ne_503 (r : Response) (h : r.StatusCode ≠ 503) :
    (Outcome.response r).retried = false := by
  simp [Outcome.retried, h]

/-- Within 9223372036 seconds in either direction the multiplication by
`time.Second` does not overflow. -/
theorem secondsDuration_of_fits (n : Int) (hlo : -9223372036 ≤ n) (hhi : n ≤ 9223372036) :
    secondsDuration n = n * Second := by
  unfold secondsDuration wrap64 Second
  norm_num
  omega

/-- The waits of a call are the delays of its retried attempts, in order. -/
theorem sleeps_eq_delays (w : World) (message : String) :
    sleeps (callHuggingFace w message).2 =
      ((outcomes (callHuggingFace w message).2).filter Outcome.retried).map Outcome.delay := by
  have hp := callHuggingFace_path w message
  generalize (callHuggingFace w message).1 = res at hp
  generalize (callHuggingFace w message).2 = tr at hp ⊢
  cases hp with
  | first s0 r0 h0 =>
    simp [sleeps, outcomes, List.filter, not_retried_of_ne_503 r0 h0]
  | second s0 s1 o0 r1 h0 h1 =>
    simp [sleeps, outcomes, List.filter, sleeps_append, outcomes_append, sleeps_closes,
      outcomes_closes, not_retried_of_ne_503 r1 h1, h0]
  | exhausted s0 s1 o0 o1 h0 h1 =>
    simp [sleeps, outcomes, List.filter, sleeps_append, outcomes_append, sleeps_closes,
      outcomes_closes, h0, h1]

/-- The retried outcomes are the transport failures and the responses with
status 503. -/
theorem retried_iff (o : Outcome) :
    o.retried = true ↔
      (∃ cause, o = Outcome.transportError cause) ∨
        ∃ resp, o = Outcome.response resp ∧ resp.StatusCode = 503 := by
  cases o with
  | transportError cause => simp [Outcome.retried]
  | response resp => simp [Outcome.retried]

/-- When the run ends on a response that is not a 503, the answer of the world
to the first call or, after a retried first attempt, to the second, the result
is what reading that response's body gives. -/
theorem callHuggingFace_result_on_response (w : World) (message : String) (r : Response)
    (hr : ((firstTrip w message).result = Outcome.response r ∧ r.StatusCode ≠ 503) ∨
      ((firstTrip w message).result.retried = true ∧
        (secondTrip w message).result = Outcome.response r ∧ r.StatusCode ≠ 503)) :
    (callHuggingFace w message).1 = (some r.Body.data, r.Body.err.map GoError.read) := by
  have hp := callHuggingFace_run w message
  generalize (callHuggingFace w message).1 = res at hp ⊢
  generalize (callHuggingFace w message).2 = tr at hp
  generalize firstSent w message = s0 at hp
  generalize secondSent w message = s1 at hp
  generalize (firstTrip w message).result = o0 at hp hr
  generalize (secondTrip w message).result = o1 at hp hr
  cases hp with
  | first r0 e0 h0 =>
    subst e0
    rcases hr with ⟨he, -⟩ | ⟨hret, -, -⟩
    · cases he
      rfl
    · rw [not_retried_of_ne_503 r0 h0] at hret
      cases hret
  | second r1 h0 e1 h1 =>
    subst e1
    rcases hr with ⟨he, hne⟩ | ⟨-, he, -⟩
    · subst he
      rw [not_retried_of_ne_503 r hne] at h0
      cases h0
    · cases he
      rfl
  | exhausted h0 h1 =>
    rcases hr with ⟨he, hne⟩ | ⟨-, he, hne⟩
    · subst he
      rw [not_retried_of_ne_503 r hne] at h0
      cases h0
    · subst he
      rw [not_retried_of_ne_503 r hne] at h1
      cases h1

/-- Claim C3: `callHuggingFace` is a total function, and for every message and
every world it calls `client.Do` at least once and at most twice; it calls it
exactly twice if and only if the world answered the first call with a
transport failure or a 503.  The calls made and the outcomes recorded are the
ones of the world: the first request and its answer, then, after a retried
first attempt, the same request object as the first call left it and the
world's answer to that. -/
theorem callHuggingFace_attempt_count (w : World) (message : String) :
    attempts (callHuggingFace w message).2 =
        (if (firstTrip w message).result.retried then
          [firstSent w message, secondSent w message]
        else [firstSent w message]) ∧
      outcomes (callHuggingFace w message).2 =
        (if (firstTrip w message).result.retried then
          [(firstTrip w message).result, (secondTrip w message).result]
        else [(firstTrip w message).result]) ∧
      1 ≤ (attempts (callHuggingFace w message).2).length ∧
      (attempts (callHuggingFace w message).2).length ≤ 2 ∧
      ((attempts (callHuggingFace w message).2).length = 2 ↔
        (∃ cause, (firstTrip w message).result = Outcome.transportError cause) ∨
          ∃ resp, (firstTrip w message).result = Outcome.response resp ∧
            resp.StatusCode = 503) := by
  rw [← retried_iff]
  have hp := callHuggingFace_run w message
  generalize (callHuggingFace w message).1 = res at hp
  generalize (callHuggingFace w message).2 = tr at hp ⊢
  cases hp with
  | first r0 e0 h0 =>
    have hr : (firstTrip w message).result.retried = false := by
      rw [e0]; exact not_retried_of_ne_503 r0 h0
    simp [attempts, outcomes, hr]
  | second r1 h0 e1 h1 =>
    simp [attempts, outcomes, attempts_append, outcomes_append, attempts_closes,
      outcomes_closes, h0]
  | exhausted h0 h1 =>
    simp [attempts, outcomes, attempts_append, outcomes_append, attempts_closes,
      outcomes_closes, h0]

/-- Claim C3 at two worlds: a provider that answers 503 and then 200 is called
twice, a provider that answers 200 at once is called once. -/
theorem callHuggingFace_attempt_count_witness :
    (firstTrip (scriptedWorld "secret"
        [Outcome.response (loading503 none), Outcome.response (ok200 [1, 2, 3])]) "hi").result =
        Outcome.response (loading503 none) ∧
      (attempts (callHuggingFace (scriptedWorld "secret"
        [Outcome.response (loading503 none), Outcome.response (ok200 [1, 2, 3])]) "hi").2).length
        = 2 ∧
      outcomes (callHuggingFace (scriptedWorld "secret" [Outcome.response (ok200 [1, 2, 3])])
        "hi").2 = [Outcome.response (ok200 [1, 2, 3])] :=
  ⟨by rfl,
    (callHuggingFace_attempt_count (scriptedWorld "secret"
      [Outcome.response (loading503 none), Outcome.response (ok200 [1, 2, 3])]) "hi").2.2.2.2.mpr
      (Or.inr ⟨loading503 none, by rfl, by rfl⟩),
    (callHuggingFace_attempt_count (scriptedWorld "secret"
      [Outcome.response (ok200 [1, 2, 3])]) "hi").2.1.trans (by rfl)⟩

/-- Claim C4: `callHuggingFace` returns a nil body with the "model load timeout"
error if and only if the world answered both the first call and the second
call of `client.Do` with a transport failure or a 503, and then both attempts
were made; whenever that error is returned the body is nil.  When instead the
run ends on a response that is not a 503, the error returned is the one of
reading that response's body, if any, and is never the timeout error. -/
theorem callHuggingFace_timeout_iff (w : World) (message : String) :
    ((callHuggingFace w message).1 = (none, some (GoError.errorf timeoutMessage)) ↔
        (firstTrip w message).result.retried = true ∧
          (secondTrip w message).result.retried = true) ∧
      (∀ o : Outcome, o.retried = true ↔
        (∃ cause, o = Outcome.transportError cause) ∨
          ∃ resp, o = Outcome.response resp ∧ resp.StatusCode = 503) ∧
      ((callHuggingFace w message).1 = (none, some (GoError.errorf timeoutMessage)) →
        outcomes (callHuggingFace w message).2 =
          [(firstTrip w message).result, (secondTrip w message).result]) ∧
      ((callHuggingFace w message).1.2 = some (GoError.errorf timeoutMessage) →
        (callHuggingFace w message).1.1 = none) ∧
      (∀ r : Response,
        ((firstTrip w message).result = Outcome.response r ∧ r.StatusCode ≠ 503) ∨
          ((firstTrip w message).result.retried = true ∧
            (secondTrip w message).result = Outcome.response r ∧ r.StatusCode ≠ 503) →
        (callHuggingFace w message).1 = (some r.Body.data, r.Body.err.map GoError.read) ∧
          (callHuggingFace w message).1.2 ≠ some (GoError.errorf timeoutMessage)) ∧
      ∀ cause, GoError.errorf timeoutMessage ≠ GoError.read cause := by
  have hp := callHuggingFace_run w message
  have hresp := callHuggingFace_result_on_response w message
  generalize (callHuggingFace w message).1 = res at hp hresp ⊢
  generalize (callHuggingFace w message).2 = tr at hp ⊢
  generalize firstSent w message = s0 at hp
  generalize secondSent w message = s1 at hp
  generalize (firstTrip w message).result = o0 at hp hresp ⊢
  generalize (secondTrip w message).result = o1 at hp hresp ⊢
  have hmap : ∀ e : Option String,
      Option.map GoError.read e ≠ some (GoError.errorf timeoutMessage) := by
    intro e; cases e <;> simp
  refine ⟨?_, retried_iff, ?_, ?_, ?_, fun cause h => by cases h⟩
  · cases hp with
    | first r0 e0 h0 =>
      subst e0
      simp [not_retried_of_ne_503 r0 h0]
    | second r1 h0 e1 h1 =>
      subst e1
      simp [not_retried_of_ne_503 r1 h1]
    | exhausted h0 h1 => simp [h0, h1]
  · cases hp with
    | first r0 e0 h0 => simp
    | second r1 h0 e1 h1 => simp
    | exhausted h0 h1 =>
      intro _
      simp [outcomes, outcomes_append, outcomes_closes]
  · cases hp with
    | first r0 e0 h0 => intro h; exact absurd h (hmap _)
    | second r1 h0 e1 h1 => intro h; exact absurd h (hmap _)
    | exhausted h0 h1 => simp
  · intro r hr
    have h := hresp r hr
    exact ⟨h, by rw [h]; exact hmap _⟩

/-- Claim C4 at two worlds: two refused connections give the timeout error; a
503 followed by a 200 does not. -/
theorem callHuggingFace_timeout_iff_witness :
    (firstTrip (scriptedWorld "secret" []) "hi").result =
        Outcome.transportError "connection refused" ∧
      (secondTrip (scriptedWorld "secret" []) "hi").result =
        Outcome.transportError "connection refused" ∧
      (callHuggingFace (scriptedWorld "secret" []) "hi").1 =
        (none, some (GoError.errorf timeoutMessage)) ∧
      (callHuggingFace (scriptedWorld "secret"
        [Outcome.response (loading503 none), Outcome.response (ok200 [1, 2, 3])]) "hi").1 =
        (some [1, 2, 3], none) :=
  ⟨by rfl, by rfl,
    (callHuggingFace_timeout_iff (scriptedWorld "secret" []) "hi").1.mpr ⟨by rfl, by rfl⟩,
    ((callHuggingFace_timeout_iff (scriptedWorld "secret"
      [Outcome.response (loading503 none), Outcome.response (ok200 [1, 2, 3])]) "hi").2.2.2.2.1
      (ok200 [1, 2, 3]) (Or.inr ⟨by rfl, by rfl, by decide⟩)).1⟩

/-- Claim C8, as amended: the durations passed to `time.Sleep` are, in order,
the delays of the retried attempts, and each retried attempt is directly
followed by its own wait (so the wait comes before the next attempt).  The
delay is 2 seconds for a transport failure, `n` seconds for a 503 whose
`Retry-After` parses as an integer `n` with `-9223372036 ≤ n ≤ 9223372036`
(the range in which `n` seconds fits in `time.Duration`), and 10 seconds for a
503 without `Retry-After`.  In particular a 503 with `Retry-After: 5` followed
by a 200 whose body `B` is read to its end waits `[5]` and returns `B`, and a
503 without `Retry-After` followed by a transport failure waits `[10, 2]` and
returns the timeout error. -/
theorem callHuggingFace_waits (w : World) (message : String) :
    sleeps (callHuggingFace w message).2 =
        ((outcomes (callHuggingFace w message).2).filter Outcome.retried).map Outcome.delay ∧
      (∀ pre post k sent o,
        (callHuggingFace w message).2 = pre ++ Event.Do k sent o :: post →
        o.retried = true → ∃ post1, post = Event.Sleep o.delay :: post1) ∧
      (∀ cause, (Outcome.transportError cause).delay = 2 * Second) ∧
      (∀ resp n, Header.Get resp.Header "Retry-After" ≠ "" →
        Atoi (Header.Get resp.Header "Retry-After") = (n, true) →
        -9223372036 ≤ n → n ≤ 9223372036 →
        (Outcome.response resp).delay = n * Second) ∧
      (∀ resp, Header.Get resp.Header "Retry-After" = "" →
        (Outcome.response resp).delay = 10 * Second) ∧
      (∀ r0 r1 B, outcomes (callHuggingFace w message).2 =
          [Outcome.response r0, Outcome.response r1] →
        r0.StatusCode = 503 → Header.Get r0.Header "Retry-After" = "5" →
        r1.StatusCode = 200 → r1.Body = { data := B, err := none } →
        sleeps (callHuggingFace w message).2 = [5 * Second] ∧
          (callHuggingFace w message).1 = (some B, none)) ∧
      (∀ r0 cause, outcomes (callHuggingFace w message).2 =
          [Outcome.response r0, Outcome.transportError cause] →
        r0.StatusCode = 503 → Header.Get r0.Header "Retry-After" = "" →
        sleeps (callHuggingFace w message).2 = [10 * Second, 2 * Second] ∧
          (callHuggingFace w message).1 = (none, some (GoError.errorf timeoutMessage))) := by
  have hdelay5 : ∀ resp : Response, Header.Get resp.Header "Retry-After" = "5" →
      (Outcome.response resp).delay = 5 * Second := by
    intro resp h
    simp only [Outcome.delay, waitTime, h]
    decide
  have hdelay10 : ∀ resp : Response, Header.Get resp.Header "Retry-After" = "" →
      (Outcome.response resp).delay = 10 * Second := by
    intro resp h
    simp only [Outcome.delay, waitTime, h]
    decide
  refine ⟨sleeps_eq_delays w message, ?_, fun _ => rfl, ?_, hdelay10, ?_, ?_⟩
  · intro pre post k sent o htrace hret
    rcases trace_after_do w message pre post k sent o htrace with ⟨-, h⟩ | ⟨r, rfl, hne, -⟩
    · exact h
    · rw [not_retried_of_ne_503 r hne] at hret
      cases hret
  · intro resp n hne hparse hlo hhi
    have hb : (Header.Get resp.Header "Retry-After" != "") = true := by simpa using hne
    simp only [Outcome.delay, waitTime, hb, if_true, hparse]
    exact secondsDuration_of_fits n hlo hhi
  · intro r0 r1 B hout h503 hra h200 hbody
    have hs := sleeps_eq_delays w message
    have hp := callHuggingFace_path w message
    rw [hout] at hs
    generalize (callHuggingFace w message).1 = res at hp ⊢
    generalize (callHuggingFace w message).2 = tr at hp hs hout ⊢
    have hr0 : (Outcome.response r0).retried = true := by simp [Outcome.retried, h503]
    have hr1 : (Outcome.response r1).retried = false := by simp [Outcome.retried, h200]
    refine ⟨by simpa [List.filter, hr0, hr1, hdelay5 r0 hra] using hs, ?_⟩
    cases hp with
    | first s0 r h0 => simp [outcomes] at hout
    | second s0 s1 o0 r h0 h1 =>
      simp [outcomes, outcomes_append, outcomes_closes] at hout
      obtain ⟨-, rfl⟩ := hout
      simp [hbody]
    | exhausted s0 s1 o0 o1 h0 h1 =>
      simp [outcomes, outcomes_append, outcomes_closes] at hout
      obtain ⟨-, rfl⟩ := hout
      rw [hr1] at h1
      cases h1
  · intro r0 cause hout h503 hra
    have hs := sleeps_eq_delays w message
    have hp := callHuggingFace_path w message
    rw [hout] at hs
    generalize (callHuggingFace w message).1 = res at hp ⊢
    generalize (callHuggingFace w message).2 = tr at hp hs hout ⊢
    have hr0 : (Outcome.response r0).retried = true := by simp [Outcome.retried, h503]
    have hr1 : (Outcome.transportError cause).retried = true := rfl
    have hd0 := hdelay10 r0 hra
    have hd1 : (Outcome.transportError cause).delay = 2 * Second := rfl
    refine ⟨by simpa [List.filter, hr0, hr1, hd0, hd1] using hs, ?_⟩
    cases hp with
    | first s0 r h0 => simp [outcomes] at hout
    | second s0 s1 o0 r h0 h1 =>
      simp [outcomes, outcomes_append, outcomes_closes] at hout
    | exhausted s0 s1 o0 o1 h0 h1 => rfl

/-- The amended claim C8 at a 503 with `Retry-After: 5` followed by a 200. -/
theorem callHuggingFace_waits_witness :
    outcomes (callHuggingFace (scriptedWorld "secret"
        [Outcome.response (loading503 (some "5")), Outcome.response (ok200 [1, 2, 3])]) "hi").2 =
        [Outcome.response (loading503 (some "5")), Outcome.response (ok200 [1, 2, 3])] ∧
      (loading503 (some "5")).StatusCode = 503 ∧
      Header.Get (loading503 (some "5")).Header "Retry-After" = "5" ∧
      (ok200 [1, 2, 3]).StatusCode = 200 ∧
      (sleeps (callHuggingFace (scriptedWorld "secret"
        [Outcome.response (loading503 (some "5")), Outcome.response (ok200 [1, 2, 3])]) "hi").2 =
          [5 * Second] ∧
        (callHuggingFace (scriptedWorld "secret"
          [Outcome.response (loading503 (some "5")), Outcome.response (ok200 [1, 2, 3])]) "hi").1 =
          (some [1, 2, 3], none)) :=
  ⟨by rfl, by rfl, by rfl, by rfl,
    (callHuggingFace_waits (scriptedWorld "secret"
      [Outcome.response (loading503 (some "5")), Outcome.response (ok200 [1, 2, 3])]) "hi").2.2.2.2.2.1
      (loading503 (some "5")) (ok200 [1, 2, 3]) [1, 2, 3] (by rfl) (by rfl) (by rfl) (by rfl) rfl⟩

/-- Claim C8 fails as stated: for `Retry-After: 9223372037` the product with
`time.Second` overflows `int64`, and the duration passed to `time.Sleep` is
negative instead of 9223372037 seconds. -/
theorem retry_after_overflow_counterexample :
    outcomes (callHuggingFace (scriptedWorld "secret"
        [Outcome.response (loading503 (some "9223372037")), Outcome.response (ok200 [1, 2, 3])])
        "hi").2 =
        [Outcome.response (loading503 (some "9223372037")), Outcome.response (ok200 [1, 2, 3])] ∧
      (loading503 (some "9223372037")).StatusCode = 503 ∧
      Atoi (Header.Get (loading503 (some "9223372037")).Header "Retry-After") =
        (9223372037, true) ∧
      sleeps (callHuggingFace (scriptedWorld "secret"
        [Outcome.response (loading503 (some "9223372037")), Outcome.response (ok200 [1, 2, 3])])
        "hi").2 = [-9223372036709551616] ∧
      sleeps (callHuggingFace (scriptedWorld "secret"
        [Outcome.response (loading503 (some "9223372037")), Outcome.response (ok200 [1, 2, 3])])
        "hi").2 ≠ [9223372037 * Second] :=
  ⟨by rfl, by rfl, by rfl, by rfl, by decide⟩

/-- When `strconv.Atoi` returns an error, the value it returns is 0 or a bound
of `int64`. -/
theorem Atoi_failure_value (s : String) (hfail : (Atoi s).2 = false) :
    (Atoi s).1 = 0 ∨ (Atoi s).1 = 2 ^ 63 - 1 ∨ (Atoi s).1 = -(2 ^ 63) := by
  unfold Atoi at hfail ⊢
  simp only [] at hfail ⊢
  generalize scanDigits (splitSign s.data).2 0 = scanned at hfail ⊢
  obtain ⟨un, ending⟩ := scanned
  cases ending <;> simp only [] at hfail ⊢ <;> split_ifs at hfail ⊢ <;> simp_all

/-- A 503 whose `Retry-After` is present and does not parse never gets the
10-second default: the duration passed to `time.Sleep` is zero or negative. -/
theorem unparsable_retry_after_never_waits (resp : Response)
    (hpresent : Header.Get resp.Header "Retry-After" ≠ "")
    (hfail : (Atoi (Header.Get resp.Header "Retry-After")).2 = false) :
    (Outcome.response resp).delay ≤ 0 := by
  have hb : (Header.Get resp.Header "Retry-After" != "") = true := by simpa using hpresent
  simp only [Outcome.delay, waitTime, hb, if_true]
  rcases Atoi_failure_value _ hfail with h | h | h <;> rw [h] <;> decide

/-- Claim C2, evaluated on the code: for a 503 whose `Retry-After` is `soon`,
or an HTTP date, `strconv.Atoi` fails and returns 0, the discarded error lets
that 0 replace the default, and the wait before the next attempt is
`time.Sleep(0)`, not the 10 seconds the claim states. -/
theorem unparsable_retry_after_waits_zero :
    (loading503 (some "soon")).StatusCode = 503 ∧
      Header.Get (loading503 (some "soon")).Header "Retry-After" = "soon" ∧
      Atoi "soon" = (0, false) ∧
      sleeps (callHuggingFace (scriptedWorld "secret"
        [Outcome.response (loading503 (some "soon")), Outcome.response (ok200 [1, 2, 3])])
        "hi").2 = [0] ∧
      Atoi "Wed, 21 Oct 2015 07:28:00 GMT" = (0, false) ∧
      sleeps (callHuggingFace (scriptedWorld "secret"
        [Outcome.response (loading503 (some "Wed, 21 Oct 2015 07:28:00 GMT")),
          Outcome.response (ok200 [1, 2, 3])]) "hi").2 = [0] ∧
      (0 : Int) ≠ 10 * Second :=
  ⟨by rfl, by rfl, by rfl, by rfl, by rfl, by rfl, by decide⟩

/-- Claim C9, evaluated on the code: the request is built once, outside the
loop, around one `bytes.Buffer`.  When the first attempt sends the body and is
answered by a 503, the retry is made with the same request object, whose
buffer is then empty: the first attempt carries the JSON payload, the second
an empty body (under the unchanged `ContentLength`). -/
theorem retry_sends_empty_body :
    (buildRequest "secret" "hi").Body =
        bytesOf "\x7b\"inputs\":\"hi\",\"max_new_tokens\":500,\"wait_for_model\":true\x7d" ∧
      (buildRequest "secret" "hi").Method = "POST" ∧
      (buildRequest "secret" "hi").URL = modelURL ∧
      (buildRequest "secret" "hi").Header =
        [("Authorization", "Bearer secret"), ("Content-Type", "application/json")] ∧
      attempts (callHuggingFace (scriptedWorld "secret"
        [Outcome.response (loading503 none), Outcome.response (ok200 [1, 2, 3])]) "hi").2 =
        [buildRequest "secret" "hi", { buildRequest "secret" "hi" with Body := [] }] ∧
      (buildRequest "secret" "hi").Body ≠ [] :=
  ⟨by rfl, by rfl, by rfl, by rfl, by rfl, by decide⟩

/-- Claim C10, evaluated on the code: `defer resp.Body.Close()` sits inside the
loop, so the `Close` of the 503 response of attempt 0 runs when the function
returns, after the second `client.Do`, and not before it. -/
theorem first_body_open_at_retry :
    (callHuggingFace (scriptedWorld "secret"
        [Outcome.response (loading503 (some "1")), Outcome.response (ok200 [1, 2, 3])]) "hi").2 =
      [Event.Do 0 (buildRequest "secret" "hi") (Outcome.response (loading503 (some "1"))),
        Event.Sleep (1 * Second),
        Event.Do 1 { buildRequest "secret" "hi" with Body := [] }
          (Outcome.response (ok200 [1, 2, 3])),
        Event.ReadAll 1,
        Event.Close 1,
        Event.Close 0] := by
  rfl

/-- In every trace of `callHuggingFace` all `Close` calls come after every other
effect: no response body is closed before the function returns. -/
theorem closes_come_last (w : World) (message : String) :
    ∃ body closes, (callHuggingFace w message).2 = body ++ closes ∧
      (∀ k, Event.Close k ∉ body) ∧ attempts closes = [] ∧
      ∀ e ∈ closes, ∃ k, e = Event.Close k := by
  have hp := callHuggingFace_path w message
  generalize (callHuggingFace w message).1 = res at hp
  generalize (callHuggingFace w message).2 = tr at hp ⊢
  cases hp with
  | first s0 r0 h0 =>
    exact ⟨[Event.Do 0 s0 (Outcome.response r0), Event.ReadAll 0], [Event.Close 0], rfl,
      by simp, rfl, by simp⟩
  | second s0 s1 o0 r1 h0 h1 =>
    refine ⟨[Event.Do 0 s0 o0, Event.Sleep o0.delay, Event.Do 1 s1 (Outcome.response r1),
      Event.ReadAll 1], [Event.Close 1] ++ o0.closes 0, by simp, by simp, ?_, ?_⟩
    · cases o0 <;> rfl
    · cases o0 <;> simp [Outcome.closes]
  | exhausted s0 s1 o0 o1 h0 h1 =>
    refine ⟨[Event.Do 0 s0 o0, Event.Sleep o0.delay, Event.Do 1 s1 o1, Event.Sleep o1.delay],
      o1.closes 1 ++ o0.closes 0, by simp, by simp, ?_, ?_⟩
    · cases o0 <;> cases o1 <;> rfl
    · cases o0 <;> cases o1 <;> simp [Outcome.closes]

/-- Claim C5, as amended: when the inbound body cannot be decoded,
`ChatHandler` answers with status 400 and a body that is the literal
`{"error":"Invalid request"}` followed by one line feed (the byte 10 that
`http.Error` appends), and performs no effect at all: `client.Do` is never
called. -/
theorem ChatHandler_rejects_undecodable (w : World) (body : Bytes) (e : String)
    (hdecode : w.decode body = Except.error e) :
    (ChatHandler w body).1.status = some 400 ∧
      (ChatHandler w body).1.body = bytesOf invalidRequestBody ++ [10] ∧
      (ChatHandler w body).2 = [] ∧
      attempts (ChatHandler w body).2 = [] := by
  have h : ChatHandler w body =
      (httpError { emptyWriter with
        header := Header.Set emptyWriter.header "Content-Type" "application/json" }
        invalidRequestBody 400, []) := by
    unfold ChatHandler
    simp only [hdecode]
  rw [h]
  exact ⟨by rfl, by rfl, rfl, rfl⟩

/-- The amended claim C5 at the body `not json`. -/
theorem ChatHandler_rejects_undecodable_witness :
    (scriptedWorld "secret" []).decode (bytesOf "not json") = Except.error "invalid character" ∧
      (ChatHandler (scriptedWorld "secret" []) (bytesOf "not json")).1.status = some 400 ∧
      (ChatHandler (scriptedWorld "secret" []) (bytesOf "not json")).1.body =
        bytesOf invalidRequestBody ++ [10] ∧
      attempts (ChatHandler (scriptedWorld "secret" []) (bytesOf "not json")).2 = [] :=
  have h := ChatHandler_rejects_undecodable (scriptedWorld "secret" []) (bytesOf "not json")
    "invalid character" (by rfl)
  ⟨by rfl, h.1, h.2.1, h.2.2.2⟩

/-- Claim C5 fails as stated: at the body `not json` the response body is not
the bare literal (it ends in a line feed). -/
theorem invalid_request_body_counterexample :
    (scriptedWorld "secret" []).decode (bytesOf "not json") = Except.error "invalid character" ∧
      (ChatHandler (scriptedWorld "secret" []) (bytesOf "not json")).1.body ≠
        bytesOf "\x7b\"error\":\"Invalid request\"\x7d" :=
  ⟨by rfl, by decide⟩

/-- Claim C6, as amended: for a decodable request, when `callHuggingFace` returns
bytes `B` with a nil error, the response of `ChatHandler` has status 200,
content type `application/json` and a body equal to `B`; in particular, when
the provider answers the first attempt with a 200 whose body is read to its
end, the response has status 200, that content type, and exactly the bytes of
that body. -/
theorem ChatHandler_passes_body_through (w : World) (body : Bytes) (req : ChatRequest)
    (hdecode : w.decode body = Except.ok req) :
    (∀ B, (callHuggingFace w req.Message).1 = (some B, none) →
      (ChatHandler w body).1.status = some 200 ∧
        Header.Get (ChatHandler w body).1.header "Content-Type" = "application/json" ∧
        (ChatHandler w body).1.body = B) ∧
      (∀ r, (firstTrip w req.Message).result = Outcome.response r →
        r.StatusCode = 200 → r.Body.err = none →
        (ChatHandler w body).1.status = some 200 ∧
          Header.Get (ChatHandler w body).1.header "Content-Type" = "application/json" ∧
          (ChatHandler w body).1.body = r.Body.data) := by
  have hmain : ∀ B, (callHuggingFace w req.Message).1 = (some B, none) →
      (ChatHandler w body).1.status = some 200 ∧
        Header.Get (ChatHandler w body).1.header "Content-Type" = "application/json" ∧
        (ChatHandler w body).1.body = B := by
    intro B hcall
    unfold ChatHandler
    simp only [hdecode]
    generalize callHuggingFace w req.Message = out at hcall
    obtain ⟨⟨b, err⟩, tr⟩ := out
    cases hcall
    refine ⟨rfl, rfl, ?_⟩
    simp [ResponseWriter.Write, ResponseWriter.WriteHeader, emptyWriter]
  refine ⟨hmain, ?_⟩
  intro r hfirst h200 hclean
  have hne : r.StatusCode ≠ 503 := by rw [h200]; decide
  have hres := callHuggingFace_result_on_response w req.Message r (Or.inl ⟨hfirst, hne⟩)
  rw [hclean] at hres
  exact hmain r.Body.data hres

/-- The amended claim C6 at a provider that answers 200 with the bytes 1, 2, 3. -/
theorem ChatHandler_passes_body_through_witness :
    (scriptedWorld "secret" [Outcome.response (ok200 [1, 2, 3])]).decode hiPayload =
        Except.ok { Message := "hi" } ∧
      (firstTrip (scriptedWorld "secret" [Outcome.response (ok200 [1, 2, 3])]) "hi").result =
        Outcome.response (ok200 [1, 2, 3]) ∧
      (ok200 [1, 2, 3]).StatusCode = 200 ∧ (ok200 [1, 2, 3]).Body.err = none ∧
      (ChatHandler (scriptedWorld "secret" [Outcome.response (ok200 [1, 2, 3])])
        hiPayload).1.status = some 200 ∧
      (ChatHandler (scriptedWorld "secret" [Outcome.response (ok200 [1, 2, 3])])
        hiPayload).1.body = [1, 2, 3] :=
  have h := (ChatHandler_passes_body_through
    (scriptedWorld "secret" [Outcome.response (ok200 [1, 2, 3])]) hiPayload { Message := "hi" }
    (by rfl)).2 (ok200 [1, 2, 3]) (by rfl) (by rfl) (by rfl)
  ⟨by rfl, by rfl, by rfl, by rfl, h.1, h.2.2⟩

/-- Claim C6 fails as stated: the provider answers the first attempt with a 200
whose body breaks off with a read error, and the response of `ChatHandler` has
status 500 and not the bytes of the provider. -/
theorem first_200_broken_body_counterexample :
    (scriptedWorld "secret" [Outcome.response (cut200 [1, 2])]).decode hiPayload =
        Except.ok { Message := "hi" } ∧
      (firstTrip (scriptedWorld "secret" [Outcome.response (cut200 [1, 2])]) "hi").result =
        Outcome.response (cut200 [1, 2]) ∧
      (cut200 [1, 2]).StatusCode = 200 ∧
      (ChatHandler (scriptedWorld "secret" [Outcome.response (cut200 [1, 2])])
        hiPayload).1.status = some 500 ∧
      (ChatHandler (scriptedWorld "secret" [Outcome.response (cut200 [1, 2])])
        hiPayload).1.body ≠ (cut200 [1, 2]).Body.data :=
  ⟨by rfl, by rfl, by rfl, by rfl, by decide⟩

/-- Claim C7, as amended: for a decodable request, whenever `callHuggingFace`
returns a non-nil error, whichever it is and whatever bytes come with it,
`ChatHandler` writes one and the same response: status 500 and a body that is
the literal `{"error":"AI service unavailable"}` followed by one line feed. -/
theorem ChatHandler_unavailable_on_error (w : World) (body : Bytes) (req : ChatRequest)
    (b : Option Bytes) (err : GoError) (hdecode : w.decode body = Except.ok req)
    (hcall : (callHuggingFace w req.Message).1 = (b, some err)) :
    (ChatHandler w body).1 = unavailableResponse ∧
      (ChatHandler w body).1.status = some 500 ∧
      (ChatHandler w body).1.body = bytesOf unavailableBody ++ [10] := by
  have h : (ChatHandler w body).1 = unavailableResponse := by
    unfold ChatHandler
    simp only [hdecode]
    generalize callHuggingFace w req.Message = out at hcall
    obtain ⟨⟨b1, err1⟩, tr⟩ := out
    cases hcall
    rfl
  rw [h]
  exact ⟨rfl, rfl, rfl⟩

/-- The amended claim C7 at a provider that refuses both connections. -/
theorem ChatHandler_unavailable_on_error_witness :
    (scriptedWorld "secret" []).decode hiPayload = Except.ok { Message := "hi" } ∧
      (callHuggingFace (scriptedWorld "secret" []) "hi").1 =
        (none, some (GoError.errorf timeoutMessage)) ∧
      (ChatHandler (scriptedWorld "secret" []) hiPayload).1 = unavailableResponse :=
  ⟨by rfl, by rfl,
    (ChatHandler_unavailable_on_error (scriptedWorld "secret" []) hiPayload { Message := "hi" }
      none (GoError.errorf timeoutMessage) (by rfl) (by rfl)).1⟩

/-- Claim C7 fails as stated: when both attempts are refused the response body
is not the bare literal (it ends in a line feed). -/
theorem unavailable_body_counterexample :
    (scriptedWorld "secret" []).decode hiPayload = Except.ok { Message := "hi" } ∧
      outcomes (callHuggingFace (scriptedWorld "secret" []) "hi").2 =
        [Outcome.transportError "connection refused",
          Outcome.transportError "connection refused"] ∧
      (callHuggingFace (scriptedWorld "secret" []) "hi").1 =
        (none, some (GoError.errorf timeoutMessage)) ∧
      (ChatHandler (scriptedWorld "secret" []) hiPayload).1.body ≠
        bytesOf "\x7b\"error\":\"AI service unavailable\"\x7d" :=
  ⟨by rfl, by rfl, by rfl, by decide⟩

end SilentFlow
